import Mathlib

/-!
Verification of the data pipeline in `dashboard.py` (Lifesight Recruitment
Dashboard). The pipeline is embedded shallowly: pandas tables become lists of
records, monetary/float columns become rationals, calendar dates become
integer day ordinals, and pandas float division is modelled as an
`Option`-valued division whose `none` constructor stands for the
undefined/non-finite outcome of dividing by zero.
-/

/-- Pandas float division `a / b`, modelled exactly: defined (`some`) whenever
the denominator is nonzero, undefined (`none`, standing for the inf/NaN
outcome) when the denominator is zero. -/
def pdDiv (a b : ℚ) : Option ℚ :=
  if b = 0 then none else some (a / b)

/-- The effect of `Series.replace(0, 1)` on one cell: a zero value becomes 1, any
other value is kept. -/
def replace0 (x : ℚ) : ℚ :=
  if x = 0 then 1 else x

/-- One row of the concatenated marketing table, after channel tagging and
date parsing (`date` is a day ordinal). Columns as in the CSV sources plus
the `platform` tag added by `load_data`. -/
structure MarketingRow where
  date : Int
  platform : String
  tactic : String
  state : String
  impression : ℚ
  clicks : ℚ
  spend : ℚ
  attributedRevenue : ℚ
deriving DecidableEq, Repr

/-- A marketing row together with the three derived metric columns added by
`load_data` (lines 87–89 of `dashboard.py`). -/
structure DerivedRow extends MarketingRow where
  roas : Option ℚ
  ctr : Option ℚ
  cpc : Option ℚ
deriving DecidableEq, Repr

/-- The derived-metric step of `load_data`:
`roas = attributed_revenue / spend.replace(0,1)`,
`ctr = (clicks / impression.replace(0,1)) * 100`,
`cpc = spend / clicks.replace(0,1)`. -/
def computeDerived (r : MarketingRow) : DerivedRow :=
  { r with
    roas := pdDiv r.attributedRevenue (replace0 r.spend)
    ctr := (pdDiv r.clicks (replace0 r.impression)).map (fun x => x * 100)
    cpc := pdDiv r.spend (replace0 r.clicks) }

/-- One row of the business table (`date` is a day ordinal; columns
`# of orders`, `new customers`, `total revenue`, `gross profit`). -/
structure BusinessRow where
  date : Int
  orders : ℚ
  newCustomers : ℚ
  totalRevenue : ℚ
  grossProfit : ℚ
deriving DecidableEq, Repr

/-- One row of a marketing CSV as read from disk, before `load_data` adds the
`platform` tag (`date` already as a day ordinal). -/
structure RawMarketingRow where
  date : Int
  tactic : String
  state : String
  impression : ℚ
  clicks : ℚ
  spend : ℚ
  attributedRevenue : ℚ
deriving DecidableEq, Repr

/-- Outcome of one `pd.read_csv` call on a required input file. -/
inductive ReadResult (α : Type) where
  | ok : α → ReadResult α
  | fileNotFound : ReadResult α
  | parseError : ReadResult α
deriving DecidableEq

/-- The exception classes a read can raise: `FileNotFoundError` (caught by
`load_data`) and any other parse failure (not caught). -/
inductive PyError where
  | fileNotFound : PyError
  | parseError : PyError
deriving DecidableEq, Repr

/-- The read outcomes of the four required input files. -/
structure ReadEnv where
  facebook : ReadResult (List RawMarketingRow)
  google : ReadResult (List RawMarketingRow)
  tiktok : ReadResult (List RawMarketingRow)
  business : ReadResult (List BusinessRow)

def readCsv {α : Type} : ReadResult α → Except PyError α
  | .ok a => .ok a
  | .fileNotFound => .error .fileNotFound
  | .parseError => .error .parseError

/-- The assignment `df['platform'] = platform`: tag every row of one channel's table. -/
def tagPlatform (p : String) (rs : List RawMarketingRow) : List MarketingRow :=
  rs.map (fun r =>
    { date := r.date, platform := p, tactic := r.tactic, state := r.state,
      impression := r.impression, clicks := r.clicks, spend := r.spend,
      attributedRevenue := r.attributedRevenue })

/-- The `try` block of `load_data`: read the three channel files in order,
then the business file; the first raised exception aborts the block. -/
def readSources (env : ReadEnv) : Except PyError (List MarketingRow × List BusinessRow) := do
  let f ← readCsv env.facebook
  let g ← readCsv env.google
  let t ← readCsv env.tiktok
  let b ← readCsv env.business
  pure (tagPlatform "Facebook" f ++ tagPlatform "Google" g ++ tagPlatform "TikTok" t, b)

/-- The three known channels, in source order. -/
def channelNames : List String := ["Facebook", "Google", "TikTok"]

/-- Day ordinal of 2025-05-16 (days since 1970-01-01), the start of the
synthetic fallback window. -/
def synthStart : Int := 20224

/-- The random draws the synthetic fallback generator makes, indexed by day
number within the 120-day window and (for marketing) channel position. The
generator itself fixes only the shape and the derived relationships; the
drawn values are opaque here, matching the unseeded `np.random` calls. -/
structure SynthRandom where
  impressionDraw : Nat → Nat → ℚ
  clicksDraw : Nat → Nat → ℚ
  spendDraw : Nat → Nat → ℚ
  multDraw : Nat → Nat → ℚ
  tacticDraw : Nat → Nat → String
  stateDraw : Nat → Nat → String
  ordersDraw : Nat → ℚ
  newCustomersDraw : Nat → ℚ
  revenueDraw : Nat → ℚ
  profitFracDraw : Nat → ℚ

/-- Synthetic marketing fallback: 120 consecutive days, one row per day per
channel, `attributed revenue = spend * multiplier`. -/
def synthMarketing (sr : SynthRandom) : List MarketingRow :=
  (List.range 120).flatMap (fun (i : Nat) =>
    channelNames.enum.map (fun pc =>
      { date := synthStart + (i : Int)
        platform := pc.2
        tactic := sr.tacticDraw i pc.1
        state := sr.stateDraw i pc.1
        impression := sr.impressionDraw i pc.1
        clicks := sr.clicksDraw i pc.1
        spend := sr.spendDraw i pc.1
        attributedRevenue := sr.spendDraw i pc.1 * sr.multDraw i pc.1 }))

/-- Synthetic business fallback: one row per day over the same 120-day
window, `gross profit = revenue * fraction`. -/
def synthBusiness (sr : SynthRandom) : List BusinessRow :=
  (List.range 120).map (fun (i : Nat) =>
    { date := synthStart + (i : Int)
      orders := sr.ordersDraw i
      newCustomers := sr.newCustomersDraw i
      totalRevenue := sr.revenueDraw i
      grossProfit := sr.revenueDraw i * sr.profitFracDraw i })

/-- What `load_data` hands to its caller: both tables (marketing with the
derived columns) and whether the fallback warning was shown. -/
structure LoadedData where
  marketing : List DerivedRow
  business : List BusinessRow
  warned : Bool

/-- The loader `load_data`: try the real files; a `FileNotFoundError` anywhere in the
`try` block is caught and replaced by the full synthetic dataset plus a
warning; any other exception propagates (`Except.error`). The derived-metric
step runs on whichever tables result. -/
def load_data (env : ReadEnv) (sr : SynthRandom) : Except PyError LoadedData :=
  match readSources env with
  | .ok (m, b) => .ok ⟨m.map computeDerived, b, false⟩
  | .error .fileNotFound => .ok ⟨(synthMarketing sr).map computeDerived, synthBusiness sr, true⟩
  | .error .parseError => .error .parseError

/-- The filter step of `main` (lines 173–186): with a well-formed
two-element date range, keep marketing rows inside the inclusive range whose
platform and state are selected, and business rows inside the range;
otherwise pass both tables through unchanged. -/
def filter_data (marketing : List DerivedRow) (business : List BusinessRow)
    (dateRange : List Int) (platformsSel : List String) (statesSel : List String) :
    List DerivedRow × List BusinessRow :=
  match dateRange with
  | [startDate, endDate] =>
      (marketing.filter (fun r =>
          decide (startDate ≤ r.date) && decide (r.date ≤ endDate) &&
          platformsSel.contains r.platform && statesSel.contains r.state),
       business.filter (fun r =>
          decide (startDate ≤ r.date) && decide (r.date ≤ endDate)))
  | _ => (marketing, business)

/-- The four scalar KPIs of `calculate_kpis`. -/
structure KpiSet where
  total_spend : ℚ
  total_attributed_revenue : ℚ
  overall_roas : ℚ
  blended_cac : ℚ
deriving DecidableEq, Repr

/-- The KPI reducer `calculate_kpis` (lines 93–107). -/
def calculate_kpis (marketing : List DerivedRow) (business : List BusinessRow) : KpiSet :=
  if marketing.isEmpty then ⟨0, 0, 0, 0⟩
  else
    let totalSpend := (marketing.map (fun r => r.spend)).sum
    let totalRev := (marketing.map (fun r => r.attributedRevenue)).sum
    let totalNew := if business.isEmpty then 0 else (business.map (fun r => r.newCustomers)).sum
    ⟨totalSpend, totalRev,
     if 0 < totalSpend then totalRev / totalSpend else 0,
     if 0 < totalNew then totalSpend / totalNew else 0⟩

/-- First-appearance (discovery) order: each value of the list once, at the
position of its first occurrence. `seen` accumulates values already emitted. -/
def firstSeenAux (seen : List String) : List String → List String
  | [] => []
  | k :: ks => if seen.contains k then firstSeenAux seen ks else k :: firstSeenAux (k :: seen) ks

/-- Discovery order of the values of a list (the spec's notion of group
order, and the key set fed into pandas' grouping). -/
def firstSeen (l : List String) : List String := firstSeenAux [] l

/-- Code-point lexicographic comparison of character lists, the order Python
and pandas use on strings. -/
def lexLe : List Char → List Char → Bool
  | [], _ => true
  | _ :: _, [] => false
  | a :: as, b :: bs =>
      if a.toNat < b.toNat then true
      else if b.toNat < a.toNat then false
      else lexLe as bs

/-- String comparison by code points, as Python compares channel names. -/
def strLe (a b : String) : Bool := lexLe a.data b.data

/-- Group keys in the order pandas `groupby('platform')` emits them: the
distinct platforms sorted ascending, since `groupby` defaults to
`sort=True`. -/
def groupKeys (m : List DerivedRow) : List String :=
  List.insertionSort (fun a b => strLe a b = true) (firstSeen (m.map (fun r => r.platform)))

/-- The rows of one platform's group, in table order. -/
def channelRows (m : List DerivedRow) (k : String) : List DerivedRow :=
  m.filter (fun r => r.platform == k)

def channelSpend (m : List DerivedRow) (k : String) : ℚ :=
  ((channelRows m k).map (fun r => r.spend)).sum

def channelRevenue (m : List DerivedRow) (k : String) : ℚ :=
  ((channelRows m k).map (fun r => r.attributedRevenue)).sum

def channelClicks (m : List DerivedRow) (k : String) : ℚ :=
  ((channelRows m k).map (fun r => r.clicks)).sum

def channelImpressions (m : List DerivedRow) (k : String) : ℚ :=
  ((channelRows m k).map (fun r => r.impression)).sum

/-- One row of `create_channel_chart`'s stats table: per-channel sums plus
roas/ctr recomputed from the sums. -/
structure ChannelSummary where
  platform : String
  spend : ℚ
  attributedRevenue : ℚ
  clicks : ℚ
  impression : ℚ
  roas : Option ℚ
  ctr : Option ℚ
deriving DecidableEq, Repr

/-- The stats table built by `create_channel_chart` (lines 114–122): group
by platform, sum spend / attributed revenue / clicks / impression, then
`roas = sum revenue / sum spend` and `ctr = (sum clicks / sum impression) * 100`
with no zero-guard on the summed denominators. Empty input yields the empty
table. -/
def create_channel_chart (m : List DerivedRow) : List ChannelSummary :=
  if m.isEmpty then []
  else (groupKeys m).map (fun k =>
    { platform := k
      spend := channelSpend m k
      attributedRevenue := channelRevenue m k
      clicks := channelClicks m k
      impression := channelImpressions m k
      roas := pdDiv (channelRevenue m k) (channelSpend m k)
      ctr := (pdDiv (channelClicks m k) (channelImpressions m k)).map (fun x => x * 100) })

/-- The table built by `create_spend_distribution_chart` (line 136): spend
summed per platform, in pandas group order. -/
def create_spend_distribution_chart (m : List DerivedRow) : List (String × ℚ) :=
  if m.isEmpty then []
  else (groupKeys m).map (fun k => (k, channelSpend m k))

/-- The (date, platform) schedule the synthetic fallback always produces:
120 consecutive days, each with one row per known channel. -/
def syntheticSchedule : List (Int × String) :=
  (List.range 120).flatMap (fun (i : Nat) => channelNames.map (fun p => (synthStart + (i : Int), p)))

/-- Sample record with zero spend and zero impressions but nonzero clicks
and attributed revenue. -/
def rowZeroSpend : MarketingRow :=
  { date := 0, platform := "Facebook", tactic := "ASC", state := "NY",
    impression := 0, clicks := 3, spend := 0, attributedRevenue := 5 }

/-- Sample record with zero clicks but nonzero spend. -/
def rowZeroClicks : MarketingRow :=
  { date := 0, platform := "Google", tactic := "Search", state := "CA",
    impression := 10, clicks := 0, spend := 7, attributedRevenue := 0 }

/-- Sample derived record dated 2025-06-01 (day ordinal 20240). -/
def rowJun1 : DerivedRow := computeDerived
  { date := 20240, platform := "Facebook", tactic := "ASC", state := "NY",
    impression := 1000, clicks := 10, spend := 100, attributedRevenue := 300 }

/-- Sample derived record dated 2025-06-02 (day ordinal 20241). -/
def rowJun2 : DerivedRow := computeDerived
  { date := 20241, platform := "Facebook", tactic := "ASC", state := "NY",
    impression := 1000, clicks := 10, spend := 100, attributedRevenue := 300 }

def bizJun1 : BusinessRow :=
  { date := 20240, orders := 10, newCustomers := 2, totalRevenue := 50, grossProfit := 20 }

def bizJun2 : BusinessRow :=
  { date := 20241, orders := 10, newCustomers := 2, totalRevenue := 50, grossProfit := 20 }

/-- Business rows whose new-customer counts are both zero. -/
def bizZero1 : BusinessRow :=
  { date := 0, orders := 10, newCustomers := 0, totalRevenue := 50, grossProfit := 20 }

def bizZero2 : BusinessRow :=
  { date := 1, orders := 12, newCustomers := 0, totalRevenue := 60, grossProfit := 25 }

def rowSpend200 : DerivedRow := computeDerived
  { date := 0, platform := "Facebook", tactic := "ASC", state := "NY",
    impression := 1000, clicks := 10, spend := 200, attributedRevenue := 400 }

def rowSpend300 : DerivedRow := computeDerived
  { date := 0, platform := "Google", tactic := "Search", state := "CA",
    impression := 1000, clicks := 10, spend := 300, attributedRevenue := 600 }

def rowChanA1 : DerivedRow := computeDerived
  { date := 0, platform := "A", tactic := "t", state := "s",
    impression := 1000, clicks := 10, spend := 100, attributedRevenue := 300 }

def rowChanA2 : DerivedRow := computeDerived
  { date := 0, platform := "A", tactic := "t", state := "s",
    impression := 0, clicks := 0, spend := 0, attributedRevenue := 0 }

def rowChanB : DerivedRow := computeDerived
  { date := 0, platform := "B", tactic := "t", state := "s",
    impression := 500, clicks := 5, spend := 50, attributedRevenue := 100 }

/-- A channel whose only row has zero spend and zero impressions but nonzero
attributed revenue and clicks. -/
def rowChanZ : DerivedRow := computeDerived
  { date := 0, platform := "Z", tactic := "t", state := "s",
    impression := 0, clicks := 5, spend := 0, attributedRevenue := 7 }

/-- Read outcome in which every required file is missing. -/
def envAllMissing : ReadEnv := ⟨.fileNotFound, .fileNotFound, .fileNotFound, .fileNotFound⟩

/-- Read outcome in which the first channel file exists but cannot be
parsed, while every other file reads fine. -/
def envUnparsable : ReadEnv := ⟨.parseError, .ok [], .ok [], .ok []⟩

/-- A fixed choice of synthetic random draws. -/
def srConst : SynthRandom :=
  ⟨fun _ _ => 100000, fun _ _ => 2000, fun _ _ => 1000, fun _ _ => 2,
   fun _ _ => "ASC", fun _ _ => "NY",
   fun _ => 300, fun _ => 80, fun _ => 30000, fun _ => 1/2⟩

lemma replace0_ne_zero (x : ℚ) : replace0 x ≠ 0 := by
  unfold replace0
  split <;> simp_all

lemma pdDiv_replace0 (a x : ℚ) : pdDiv a (replace0 x) = some (a / replace0 x) := by
  unfold pdDiv
  rw [if_neg (replace0_ne_zero x)]

lemma roas_computeDerived (r : MarketingRow) :
    (computeDerived r).roas = some (r.attributedRevenue / replace0 r.spend) := by
  simp [computeDerived, pdDiv_replace0]

lemma ctr_computeDerived (r : MarketingRow) :
    (computeDerived r).ctr = some ((r.clicks / replace0 r.impression) * 100) := by
  simp [computeDerived, pdDiv_replace0]

lemma cpc_computeDerived (r : MarketingRow) :
    (computeDerived r).cpc = some (r.spend / replace0 r.clicks) := by
  simp [computeDerived, pdDiv_replace0]

lemma replace0_zero : replace0 0 = 1 := rfl

/-- C1 counterexample: the derived-metric step does NOT send every
zero-denominator record to 0. On `rowZeroSpend` (spend = 0, impressions = 0,
attributed revenue = 5, clicks = 3) it yields roas = 5 and ctr = 300, and on
`rowZeroClicks` (clicks = 0, spend = 7) it yields cpc = 7 — never 0. -/
theorem roas_zero_spend_not_zero_cex :
    rowZeroSpend.spend = 0 ∧ (computeDerived rowZeroSpend).roas = some 5 ∧
      (computeDerived rowZeroSpend).roas ≠ some 0 ∧
    rowZeroSpend.impression = 0 ∧ (computeDerived rowZeroSpend).ctr = some 300 ∧
      (computeDerived rowZeroSpend).ctr ≠ some 0 ∧
    rowZeroClicks.clicks = 0 ∧ (computeDerived rowZeroClicks).cpc = some 7 ∧
      (computeDerived rowZeroClicks).cpc ≠ some 0 := by
  refine ⟨rfl, ?_, ?_, rfl, ?_, ?_, rfl, ?_, ?_⟩ <;>
    norm_num [roas_computeDerived, ctr_computeDerived, cpc_computeDerived, rowZeroSpend,
      rowZeroClicks, replace0]

/-- C1 (amended): the derived value is always defined (never NaN/inf) — but
on a zero denominator it equals the numerator (times 100 for ctr), not 0:
with spend = 0, roas = attributed_revenue; with impressions = 0,
ctr = 100 * clicks; with clicks = 0, cpc = spend. It is 0 exactly when the
numerator is 0 too. -/
theorem derived_metrics_zero_denominator_defined (r : MarketingRow) :
    (computeDerived r).roas.isSome ∧ (computeDerived r).ctr.isSome ∧
    (computeDerived r).cpc.isSome ∧
    (r.spend = 0 → (computeDerived r).roas = some r.attributedRevenue ∧
      ((computeDerived r).roas = some 0 ↔ r.attributedRevenue = 0)) ∧
    (r.impression = 0 → (computeDerived r).ctr = some (100 * r.clicks) ∧
      ((computeDerived r).ctr = some 0 ↔ r.clicks = 0)) ∧
    (r.clicks = 0 → (computeDerived r).cpc = some r.spend ∧
      ((computeDerived r).cpc = some 0 ↔ r.spend = 0)) := by
  refine ⟨?_, ?_, ?_, fun h => ⟨?_, ?_⟩, fun h => ⟨?_, ?_⟩, fun h => ⟨?_, ?_⟩⟩
  · simp [roas_computeDerived]
  · simp [ctr_computeDerived]
  · simp [cpc_computeDerived]
  · simp [roas_computeDerived, h, replace0]
  · simp [roas_computeDerived, h, replace0]
  · simp [ctr_computeDerived, h, replace0, mul_comm]
  · simp [ctr_computeDerived, h, replace0, mul_eq_zero]
  · simp [cpc_computeDerived, h, replace0]
  · simp [cpc_computeDerived, h, replace0]

/-- Witness for the amended C1, at the concrete records `rowZeroSpend` and
`rowZeroClicks`. -/
theorem derived_metrics_zero_denominator_defined_witness :
    (computeDerived rowZeroSpend).roas = some 5 ∧
    (computeDerived rowZeroSpend).ctr = some 300 ∧
    (computeDerived rowZeroClicks).cpc = some 7 := by
  have h1 := (derived_metrics_zero_denominator_defined rowZeroSpend).2.2.2.1 rfl
  have h2 := (derived_metrics_zero_denominator_defined rowZeroSpend).2.2.2.2.1 rfl
  have h3 := (derived_metrics_zero_denominator_defined rowZeroClicks).2.2.2.2.2 rfl
  refine ⟨h1.1.trans ?_, (h2.1.trans ?_), (h3.1.trans ?_)⟩ <;>
    norm_num [rowZeroSpend, rowZeroClicks]

/-- C2: the derived-metric step computes each metric by replacing a zero
denominator with 1 and then dividing, so a zero denominator with a nonzero
numerator yields the numerator itself (times 100 for ctr), and yields 0 only
when the numerator is also 0. -/
theorem derived_metrics_replace_then_divide (r : MarketingRow) :
    (computeDerived r).roas = some (r.attributedRevenue / (if r.spend = 0 then 1 else r.spend)) ∧
    (computeDerived r).ctr = some (100 * r.clicks / (if r.impression = 0 then 1 else r.impression)) ∧
    (computeDerived r).cpc = some (r.spend / (if r.clicks = 0 then 1 else r.clicks)) ∧
    (r.spend = 0 → r.attributedRevenue ≠ 0 → (computeDerived r).roas = some r.attributedRevenue) ∧
    (r.impression = 0 → r.clicks ≠ 0 → (computeDerived r).ctr = some (100 * r.clicks)) ∧
    (r.clicks = 0 → r.spend ≠ 0 → (computeDerived r).cpc = some r.spend) ∧
    (r.spend = 0 → ((computeDerived r).roas = some 0 ↔ r.attributedRevenue = 0)) ∧
    (r.impression = 0 → ((computeDerived r).ctr = some 0 ↔ r.clicks = 0)) ∧
    (r.clicks = 0 → ((computeDerived r).cpc = some 0 ↔ r.spend = 0)) := by
  refine ⟨?_, ?_, ?_, fun h h2 => ?_, fun h h2 => ?_, fun h h2 => ?_,
    fun h => ?_, fun h => ?_, fun h => ?_⟩
  · simp [roas_computeDerived, replace0]
  · simp only [ctr_computeDerived, replace0, Option.some.injEq]
    ring
  · simp [cpc_computeDerived, replace0]
  · simp [roas_computeDerived, h, replace0]
  · simp [ctr_computeDerived, h, replace0, mul_comm]
  · simp [cpc_computeDerived, h, replace0]
  · simp [roas_computeDerived, h, replace0]
  · simp [ctr_computeDerived, h, replace0, mul_eq_zero]
  · simp [cpc_computeDerived, h, replace0]

/-- Witness for C2: on `rowZeroSpend` (spend = 0, revenue = 5 ≠ 0;
impressions = 0, clicks = 3 ≠ 0) the guarded divisions return the numerators
5 and 300, and on `rowZeroClicks` (clicks = 0, spend = 7 ≠ 0) cpc = 7. -/
theorem derived_metrics_replace_then_divide_witness :
    rowZeroSpend.spend = 0 ∧ rowZeroSpend.attributedRevenue ≠ 0 ∧
    (computeDerived rowZeroSpend).roas = some 5 ∧
    (computeDerived rowZeroSpend).ctr = some 300 ∧
    rowZeroClicks.clicks = 0 ∧ rowZeroClicks.spend ≠ 0 ∧
    (computeDerived rowZeroClicks).cpc = some 7 := by
  have h1 := (derived_metrics_replace_then_divide rowZeroSpend).2.2.2.1 rfl (by norm_num [rowZeroSpend])
  have h2 := (derived_metrics_replace_then_divide rowZeroSpend).2.2.2.2.1 rfl (by norm_num [rowZeroSpend])
  have h3 := (derived_metrics_replace_then_divide rowZeroClicks).2.2.2.2.2.1 rfl (by norm_num [rowZeroClicks])
  refine ⟨rfl, by norm_num [rowZeroSpend], h1.trans ?_, h2.trans ?_, rfl,
    by norm_num [rowZeroClicks], h3.trans ?_⟩ <;> norm_num [rowZeroSpend, rowZeroClicks]

/-- C3 counterexample: with the first channel file present but unparsable
(`envUnparsable`), `load_data` does not recover — the parse error escapes
its boundary instead of a Dataset being returned, contradicting the claim
that it never raises for a missing or unparsable input. -/
theorem load_data_unparsable_raises_cex :
    load_data envUnparsable srConst = .error .parseError := rfl

set_option maxRecDepth 20000 in
/-- C3 (amended): `load_data` never raises when the failure is a missing
file: whenever the first failing read raises `FileNotFoundError`, it
discards whatever was read and returns the complete synthetic Dataset — 120
consecutive days with one marketing row per day per channel (360 rows) and
120 business rows — surfacing only the non-fatal warning. An unparsable
file, by contrast, propagates as an exception. -/
theorem load_data_missing_file_fallback (env : ReadEnv) (sr : SynthRandom)
    (h : readSources env = .error .fileNotFound) :
    ∃ d : LoadedData, load_data env sr = .ok d ∧ d.warned = true ∧
      d.marketing.length = 360 ∧ d.business.length = 120 ∧
      d.marketing.map (fun r => (r.date, r.platform)) = syntheticSchedule ∧
      d.business.map (fun r => r.date) =
        (List.range 120).map (fun (i : Nat) => synthStart + (i : Int)) := by
  refine ⟨⟨(synthMarketing sr).map computeDerived, synthBusiness sr, true⟩, ?_, rfl, ?_, ?_, ?_, ?_⟩
  · unfold load_data
    rw [h]
  · rfl
  · rfl
  · rfl
  · rfl

/-- Witness for the amended C3: every input file missing, a concrete draw
source. -/
theorem load_data_missing_file_fallback_witness :
    ∃ d : LoadedData, load_data envAllMissing srConst = .ok d ∧ d.warned = true ∧
      d.marketing.length = 360 ∧ d.business.length = 120 ∧
      d.marketing.map (fun r => (r.date, r.platform)) = syntheticSchedule ∧
      d.business.map (fun r => r.date) =
        (List.range 120).map (fun (i : Nat) => synthStart + (i : Int)) :=
  load_data_missing_file_fallback envAllMissing srConst rfl

/-- C4: with а well-formed (start, end) pair, the filter step retains
exactly the marketing rows whose date lies in the inclusive range and whose
platform and state are selected, and exactly the business rows whose date
lies in the same inclusive range (keeping table order: both outputs are
sublists of their inputs). In particular, with range (2025-06-01,
2025-06-01) the record dated 2025-06-01 is retained and the one dated
2025-06-02 is excluded. -/
theorem filter_data_retains_exactly (m : List DerivedRow) (b : List BusinessRow)
    (s e : Int) (ps ss : List String) :
    (∀ r : DerivedRow, r ∈ (filter_data m b [s, e] ps ss).1 ↔
      r ∈ m ∧ s ≤ r.date ∧ r.date ≤ e ∧ r.platform ∈ ps ∧ r.state ∈ ss) ∧
    (∀ x : BusinessRow, x ∈ (filter_data m b [s, e] ps ss).2 ↔
      x ∈ b ∧ s ≤ x.date ∧ x.date ≤ e) ∧
    (filter_data m b [s, e] ps ss).1.Sublist m ∧
    (filter_data m b [s, e] ps ss).2.Sublist b ∧
    filter_data [rowJun1, rowJun2] [bizJun1, bizJun2] [20240, 20240] ["Facebook"] ["NY"] =
      ([rowJun1], [bizJun1]) := by
  refine ⟨fun r => ?_, fun x => ?_, ?_, ?_, rfl⟩
  · simp [filter_data, List.mem_filter, and_assoc]
  · simp [filter_data, List.mem_filter, and_assoc]
  · exact List.filter_sublist m
  · exact List.filter_sublist b

/-- C5: if the date range is malformed (anything but a two-element pair),
the filter step passes both tables through unchanged. -/
theorem filter_data_malformed_range_passthrough (m : List DerivedRow) (b : List BusinessRow)
    (dr : List Int) (ps ss : List String) (h : dr.length ≠ 2) :
    filter_data m b dr ps ss = (m, b) := by
  match dr with
  | [] => rfl
  | [_] => rfl
  | [_, _] => simp at h
  | _ :: _ :: _ :: _ => rfl

/-- Witness for C5: a single-date range (the shape a date picker yields
mid-selection) leaves both tables untouched. -/
theorem filter_data_malformed_range_passthrough_witness :
    filter_data [rowJun1] [bizJun1] [20240] ["Facebook"] ["NY"] = ([rowJun1], [bizJun1]) :=
  filter_data_malformed_range_passthrough _ _ _ _ _ (by decide)

/-- C6: on an empty marketing table, `calculate_kpis` returns the all-zero
KpiSet whatever the business table holds, without error. -/
theorem calculate_kpis_empty_marketing (b : List BusinessRow) :
    calculate_kpis [] b = ⟨0, 0, 0, 0⟩ := rfl

/-- C7: on a non-empty marketing table, `calculate_kpis` returns the summed
spend and attributed revenue, roas guarded by `total_spend > 0`, and cac
guarded by `total_new_customers > 0` — where the new-customer total is the
plain sum over the business table (0 for an empty table). -/
theorem calculate_kpis_nonempty (m : List DerivedRow) (b : List BusinessRow) (hm : m ≠ []) :
    calculate_kpis m b =
      { total_spend := (m.map (fun r => r.spend)).sum
        total_attributed_revenue := (m.map (fun r => r.attributedRevenue)).sum
        overall_roas :=
          if 0 < (m.map (fun r => r.spend)).sum then
            (m.map (fun r => r.attributedRevenue)).sum / (m.map (fun r => r.spend)).sum
          else 0
        blended_cac :=
          if 0 < (b.map (fun r => r.newCustomers)).sum then
            (m.map (fun r => r.spend)).sum / (b.map (fun r => r.newCustomers)).sum
          else 0 } := by
  cases m with
  | nil => exact absurd rfl hm
  | cons a t =>
      by_cases hb : b = []
      · subst hb
        simp [calculate_kpis]
      · have hb' : b.isEmpty = false := by simpa [List.isEmpty_iff] using hb
        simp [calculate_kpis, hb']

/-- Witness for C7, at the spec's scenario: marketing spend totalling 500
and business new-customer counts [0, 0] give blended_cac = 0 (guarded
divide-by-zero) and the computation returns normally. -/
theorem calculate_kpis_nonempty_witness :
    calculate_kpis [rowSpend200, rowSpend300] [bizZero1, bizZero2] =
      { total_spend := 500, total_attributed_revenue := 1000,
        overall_roas := 2, blended_cac := 0 } := by
  have h := calculate_kpis_nonempty [rowSpend200, rowSpend300] [bizZero1, bizZero2]
    (List.cons_ne_nil _ _)
  rw [h]
  norm_num [rowSpend200, rowSpend300, bizZero1, bizZero2, computeDerived]

lemma lexLe_total (as bs : List Char) : lexLe as bs = true ∨ lexLe bs as = true := by
  induction as generalizing bs with
  | nil => exact Or.inl rfl
  | cons a as ih =>
    cases bs with
    | nil => exact Or.inr rfl
    | cons b bs =>
      simp only [lexLe]
      rcases Nat.lt_trichotomy a.toNat b.toNat with h | h | h
      · left
        simp [h]
      · have h1 : ¬ a.toNat < b.toNat := by omega
        have h2 : ¬ b.toNat < a.toNat := by omega
        simpa [h1, h2] using ih bs
      · right
        simp [h]

lemma lexLe_trans (as bs cs : List Char) (h1 : lexLe as bs = true)
    (h2 : lexLe bs cs = true) : lexLe as cs = true := by
  induction as generalizing bs cs with
  | nil => rfl
  | cons a as ih =>
    cases bs with
    | nil => simp [lexLe] at h1
    | cons b bs =>
      cases cs with
      | nil => simp [lexLe] at h2
      | cons c cs =>
        simp only [lexLe] at h1 h2 ⊢
        by_cases h3 : a.toNat < b.toNat
        · by_cases h4 : b.toNat < c.toNat
          · have hac : a.toNat < c.toNat := by omega
            simp [hac]
          · by_cases h5 : c.toNat < b.toNat
            · rw [if_neg h4, if_pos h5] at h2
              simp at h2
            · have hac : a.toNat < c.toNat := by omega
              simp [hac]
        · by_cases h5 : b.toNat < a.toNat
          · rw [if_neg h3, if_pos h5] at h1
            simp at h1
          · rw [if_neg h3, if_neg h5] at h1
            by_cases h4 : b.toNat < c.toNat
            · have hac : a.toNat < c.toNat := by omega
              simp [hac]
            · by_cases h6 : c.toNat < b.toNat
              · rw [if_neg h4, if_pos h6] at h2
                simp at h2
              · rw [if_neg h4, if_neg h6] at h2
                have hac1 : ¬ a.toNat < c.toNat := by omega
                have hac2 : ¬ c.toNat < a.toNat := by omega
                rw [if_neg hac1, if_neg hac2]
                exact ih bs cs h1 h2

instance : IsTotal String (fun a b => strLe a b = true) :=
  ⟨fun a b => lexLe_total a.data b.data⟩

instance : IsTrans String (fun a b => strLe a b = true) :=
  ⟨fun a b c h1 h2 => lexLe_trans a.data b.data c.data h1 h2⟩

lemma mem_firstSeenAux (a : String) : ∀ (l seen : List String),
    a ∈ firstSeenAux seen l ↔ a ∈ l ∧ a ∉ seen := by
  intro l
  induction l with
  | nil =>
    intro seen
    simp [firstSeenAux]
  | cons k ks ih =>
    intro seen
    by_cases hk : seen.contains k = true
    · have hk' : k ∈ seen := by simpa using hk
      simp only [firstSeenAux, if_pos hk, ih seen, List.mem_cons]
      constructor
      · rintro ⟨h1, h2⟩
        exact ⟨Or.inr h1, h2⟩
      · rintro ⟨h1 | h1, h2⟩
        · subst h1
          exact absurd hk' h2
        · exact ⟨h1, h2⟩
    · have hk' : k ∉ seen := by simpa using hk
      simp only [firstSeenAux, if_neg hk, ih (k :: seen), List.mem_cons]
      constructor
      · rintro (h | ⟨h1, h2⟩)
        · subst h
          exact ⟨Or.inl rfl, hk'⟩
        · exact ⟨Or.inr h1, fun hc => h2 (Or.inr hc)⟩
      · rintro ⟨h1 | h1, h2⟩
        · exact Or.inl h1
        · by_cases hak : a = k
          · exact Or.inl hak
          · exact Or.inr ⟨h1, fun hc => hc.elim hak h2⟩

lemma mem_firstSeen (a : String) (l : List String) : a ∈ firstSeen l ↔ a ∈ l := by
  simp [firstSeen, mem_firstSeenAux]

lemma mem_groupKeys (k : String) (m : List DerivedRow) :
    k ∈ groupKeys m ↔ k ∈ m.map (fun r => r.platform) := by
  unfold groupKeys
  rw [(List.perm_insertionSort _ _).mem_iff, mem_firstSeen]

/-- C8: for every channel present in a non-empty marketing table, the
by-channel aggregation emits a summary whose spend, attributed revenue,
clicks and impressions are the per-channel sums, and whose roas and ctr are
recomputed from those summed totals — a single division of sums, never an
average of per-row ratios. -/
theorem channel_chart_sums_and_recomputed_ratios (m : List DerivedRow) (hm : m ≠ [])
    (k : String) (hk : k ∈ m.map (fun r => r.platform)) :
    ∃ s ∈ create_channel_chart m, s.platform = k ∧
      s.spend = channelSpend m k ∧ s.attributedRevenue = channelRevenue m k ∧
      s.clicks = channelClicks m k ∧ s.impression = channelImpressions m k ∧
      s.roas = pdDiv (channelRevenue m k) (channelSpend m k) ∧
      s.ctr = (pdDiv (channelClicks m k) (channelImpressions m k)).map (fun x => x * 100) := by
  have hm' : m.isEmpty = false := by simpa [List.isEmpty_iff] using hm
  rw [create_channel_chart, if_neg (by simp [hm'])]
  exact ⟨_, List.mem_map_of_mem _ ((mem_groupKeys k m).mpr hk),
    rfl, rfl, rfl, rfl, rfl, rfl, rfl⟩

/-- Witness for C8, at the spec's scenario: two rows for channel A, one with
(spend 100, revenue 300, clicks 10, impressions 1000) and one all-zero; the
summary reports spend 100, revenue 300, roas 3 and ctr 1. -/
theorem channel_chart_sums_and_recomputed_ratios_witness :
    ∃ s ∈ create_channel_chart [rowChanA1, rowChanA2], s.platform = "A" ∧
      s.spend = 100 ∧ s.attributedRevenue = 300 ∧ s.roas = some 3 ∧ s.ctr = some 1 := by
  obtain ⟨s, hs, hplat, hsp, hrev, hcl, himp, hroas, hctr⟩ :=
    channel_chart_sums_and_recomputed_ratios [rowChanA1, rowChanA2]
      (List.cons_ne_nil _ _) "A" (by simp [rowChanA1, computeDerived])
  refine ⟨s, hs, hplat, ?_, ?_, ?_, ?_⟩
  · rw [hsp]
    norm_num [channelSpend, channelRows, rowChanA1, rowChanA2, computeDerived]
  · rw [hrev]
    norm_num [channelRevenue, channelRows, rowChanA1, rowChanA2, computeDerived]
  · rw [hroas]
    norm_num [channelRevenue, channelSpend, channelRows, rowChanA1, rowChanA2,
      computeDerived, pdDiv]
  · rw [hctr]
    norm_num [channelClicks, channelImpressions, channelRows, rowChanA1, rowChanA2,
      computeDerived, pdDiv]

/-- C9 counterexample: pandas `groupby` sorts its keys (`sort=True` is the
default), so group order is NOT first-appearance order. In a table whose
rows discover channel "B" before channel "A", both grouped outputs list "A"
before "B", while discovery order is ["B", "A"]. -/
theorem group_order_not_discovery_cex :
    (create_channel_chart [rowChanB, rowChanA1]).map (fun s => s.platform) = ["A", "B"] ∧
    (create_spend_distribution_chart [rowChanB, rowChanA1]).map (fun p => p.1) = ["A", "B"] ∧
    firstSeen ([rowChanB, rowChanA1].map (fun r => r.platform)) = ["B", "A"] ∧
    (["A", "B"] : List String) ≠ ["B", "A"] := by
  refine ⟨rfl, rfl, rfl, by decide⟩

/-- C9 (amended): the rows of each grouped aggregation output appear in
ascending (code-point lexicographic) order of the group key — the order
pandas' default `sort=True` produces — and carry exactly the distinct keys
of the input (one row per discovered key); they follow insertion/discovery
order only when that happens to be ascending. -/
theorem group_order_sorted (m : List DerivedRow) (hm : m ≠ []) :
    List.Sorted (fun a b => strLe a b = true)
      ((create_channel_chart m).map (fun s => s.platform)) ∧
    ((create_channel_chart m).map (fun s => s.platform)).Perm
      (firstSeen (m.map (fun r => r.platform))) ∧
    List.Sorted (fun a b => strLe a b = true)
      ((create_spend_distribution_chart m).map (fun p => p.1)) ∧
    ((create_spend_distribution_chart m).map (fun p => p.1)).Perm
      (firstSeen (m.map (fun r => r.platform))) := by
  have hm' : m.isEmpty = false := by simpa [List.isEmpty_iff] using hm
  have h1 : (create_channel_chart m).map (fun s => s.platform) = groupKeys m := by
    rw [create_channel_chart, if_neg (by simp [hm']), List.map_map]
    show List.map (fun k : String => k) (groupKeys m) = groupKeys m
    simp
  have h2 : (create_spend_distribution_chart m).map (fun p => p.1) = groupKeys m := by
    rw [create_spend_distribution_chart, if_neg (by simp [hm']), List.map_map]
    show List.map (fun k : String => k) (groupKeys m) = groupKeys m
    simp
  rw [h1, h2]
  unfold groupKeys
  exact ⟨List.sorted_insertionSort _ _, List.perm_insertionSort _ _,
    List.sorted_insertionSort _ _, List.perm_insertionSort _ _⟩

/-- Witness for the amended C9 at a concrete two-channel table that
discovers "B" first. -/
theorem group_order_sorted_witness :
    List.Sorted (fun a b => strLe a b = true)
      ((create_channel_chart [rowChanB, rowChanA1]).map (fun s => s.platform)) ∧
    ((create_channel_chart [rowChanB, rowChanA1]).map (fun s => s.platform)).Perm
      (firstSeen ([rowChanB, rowChanA1].map (fun r => r.platform))) ∧
    List.Sorted (fun a b => strLe a b = true)
      ((create_spend_distribution_chart [rowChanB, rowChanA1]).map (fun p => p.1)) ∧
    ((create_spend_distribution_chart [rowChanB, rowChanA1]).map (fun p => p.1)).Perm
      (firstSeen ([rowChanB, rowChanA1].map (fun r => r.platform))) :=
  group_order_sorted [rowChanB, rowChanA1] (List.cons_ne_nil _ _)

/-- C10: the by-channel aggregation applies no zero-guard to its recomputed
ratios: for any channel of a non-empty table whose summed spend
(respectively summed impressions) is 0, the emitted roas (respectively ctr)
is the undefined outcome of a division by zero — the replace-then-divide
guard of the per-record step is absent here. -/
theorem channel_chart_no_zero_guard (m : List DerivedRow) (hm : m ≠ [])
    (k : String) (hk : k ∈ m.map (fun r => r.platform)) :
    (channelSpend m k = 0 → ∃ s ∈ create_channel_chart m, s.platform = k ∧ s.roas = none) ∧
    (channelImpressions m k = 0 → ∃ s ∈ create_channel_chart m, s.platform = k ∧ s.ctr = none) := by
  have hm' : m.isEmpty = false := by simpa [List.isEmpty_iff] using hm
  constructor
  · intro h0
    rw [create_channel_chart, if_neg (by simp [hm'])]
    refine ⟨_, List.mem_map_of_mem _ ((mem_groupKeys k m).mpr hk), rfl, ?_⟩
    show pdDiv (channelRevenue m k) (channelSpend m k) = none
    rw [h0]
    simp [pdDiv]
  · intro h0
    rw [create_channel_chart, if_neg (by simp [hm'])]
    refine ⟨_, List.mem_map_of_mem _ ((mem_groupKeys k m).mpr hk), rfl, ?_⟩
    show (pdDiv (channelClicks m k) (channelImpressions m k)).map (fun x => x * 100) = none
    rw [h0]
    simp [pdDiv]

/-- Witness for C10: channel "Z" has one row with zero spend and zero
impressions (but nonzero revenue and clicks); its aggregated roas and ctr
are both the undefined division outcome. -/
theorem channel_chart_no_zero_guard_witness :
    (∃ s ∈ create_channel_chart [rowChanA1, rowChanZ], s.platform = "Z" ∧ s.roas = none) ∧
    (∃ s ∈ create_channel_chart [rowChanA1, rowChanZ], s.platform = "Z" ∧ s.ctr = none) := by
  have h := channel_chart_no_zero_guard [rowChanA1, rowChanZ] (List.cons_ne_nil _ _) "Z"
    (by simp [rowChanA1, rowChanZ, computeDerived])
  have hr : channelRows [rowChanA1, rowChanZ] "Z" = [rowChanZ] := rfl
  refine ⟨h.1 ?_, h.2 ?_⟩ <;>
    · simp only [channelSpend, channelImpressions]
      rw [hr]
      simp [rowChanZ, computeDerived]
